import Mathlib

/-!
# Verification of the py-libhdate calendar and zmanim core

Shallow embedding of `hdate/hdate_julian.py`, `hdate/common.py` and
`hdate/zmanim.py`.  The Python source is Python-2 style: `/` on integers is
floor division and `%` is the floor-compatible modulus.  Every divisor in the
source is a positive constant, for which Lean's Euclidean `/` and `%` on `Int`
agree exactly with Python's floor division and modulus, so the embedding uses
plain `Int` division and modulus throughout.
-/

namespace Hdate

/-! ## hdate_julian.py : constants -/
def PARTS_IN_HOUR : Int := 1080

def PARTS_IN_DAY : Int := 24 * PARTS_IN_HOUR

def PARTS_IN_WEEK : Int := 7 * PARTS_IN_DAY

/-- `get_chalakim(hours, parts)`: total number of parts (chalakim). -/
def get_chalakim (hours parts : Int) : Int :=
  hours * PARTS_IN_HOUR + parts

def PARTS_IN_MONTH : Int := PARTS_IN_DAY + get_chalakim 12 793

/-! ## hdate_julian.py : molad day count -/
/-- `_days_from_3744(hebrew_year)`: number of days since 3,1,3744, including
the molad-zaken deferral and the ADU rule. -/
def days_from_3744 (hebrew_year : Int) : Int :=
  let years_from_3744 := hebrew_year - 3744
  let molad_3744 := get_chalakim (1 + 6) 779
  let leap_months := (years_from_3744 * 7 + 1) / 19
  let leap_left := (years_from_3744 * 7 + 1) % 19
  let months := years_from_3744 * 12 + leap_months
  let parts := months * PARTS_IN_MONTH + molad_3744
  let days := months * 28 + parts / PARTS_IN_DAY - 2
  let parts_left_in_week := parts % PARTS_IN_WEEK
  let parts_left_in_day := parts % PARTS_IN_DAY
  let week_day := parts_left_in_week / PARTS_IN_DAY
  let zaken : Bool :=
    (leap_left < 12 && week_day == 3 &&
      parts_left_in_day ≥ get_chalakim (9 + 6) 204) ||
    (leap_left < 7 && week_day == 2 &&
      parts_left_in_day ≥ get_chalakim (15 + 6) 589)
  let days := if zaken then days + 1 else days
  let week_day := if zaken then week_day + 1 else week_day
  let days :=
    if week_day == 1 || week_day == 4 || week_day == 6 then days + 1 else days
  days

/-- `_get_size_of_hebrew_year(hebrew_year)`: total days in the Hebrew year. -/
def get_size_of_hebrew_year (hebrew_year : Int) : Int :=
  days_from_3744 (hebrew_year + 1) - days_from_3744 hebrew_year

/-! ## hdate_julian.py : year type -/
/-- The 24-entry lookup table in `get_year_type`. -/
def year_types : List Int :=
  [1, 0, 0, 2, 0, 3, 4,
   0, 5, 0, 6, 7, 8, 0,
   9, 10, 0, 11, 0, 0, 12,
   0, 13, 14]

/-- Python list indexing `l[i]`: negative indices count from the end, and an
index outside `[-len, len)` raises `IndexError` (modelled as `none`). -/
def pyindex (l : List Int) (i : Int) : Option Int :=
  if 0 ≤ i then l.get? i.toNat
  else if 0 ≤ i + l.length then l.get? (i + l.length).toNat
  else none

/-- `get_year_type(size_of_year, new_year_dw)`: year type from the 24-entry
table; `none` models a Python `IndexError`. -/
def get_year_type (size_of_year new_year_dw : Int) : Option Int :=
  let offset := (new_year_dw + 1) / 2
  let offset :=
    offset + 4 * ((size_of_year % 10 - 3) + (size_of_year / 10 - 35))
  pyindex year_types (offset - 1)

/-! ## hdate_julian.py : civil (Gregorian) conversions -/
/-- `gdate_to_jd(day, month, year)`: Julian day number from a Gregorian
date (Fliegel-Van Flandern style formula). -/
def gdate_to_jd (day month year : Int) : Int :=
  let not_jan_or_feb := (14 - month) / 12
  let year_since_4800bc := year + 4800 - not_jan_or_feb
  let month_since_4800bc := month + 12 * not_jan_or_feb - 3
  day + (153 * month_since_4800bc + 2) / 5 + 365 * year_since_4800bc +
    (year_since_4800bc / 4 - year_since_4800bc / 100 +
      year_since_4800bc / 400) - 32045

/-- `jd_to_gdate(jday)`: Gregorian `(day, month, year)` from a Julian day
number (Peter Meyer decomposition). -/
def jd_to_gdate (jday : Int) : Int × Int × Int :=
  let l := jday + 68569
  let n := 4 * l / 146097
  let l := l - (146097 * n + 3) / 4
  let i := 4000 * (l + 1) / 1461001
  let l := l - 1461 * i / 4 + 31
  let j := 80 * l / 2447
  let day := l - 2447 * j / 80
  let l := j / 11
  let month := j + 2 - 12 * l
  let year := 100 * (n - 49) + i + l
  (day, month, year)

/-! ## hdate_julian.py : Hebrew conversions -/
/-- `hdate_to_jd(day, month, year)`: `(julian day, 1 Tishrei julian, 1 Tishrei
julian of next year)` from a Hebrew date. -/
def hdate_to_jd (day month year : Int) : Int × Int × Int :=
  let month := if month = 13 then 6 else month
  let day := if month = 14 then day + 30 else day
  let month := if month = 14 then 6 else month
  let days_from := days_from_3744 year
  let day := days_from + (59 * (month - 1) + 1) / 2 + day
  let length_of_year := days_from_3744 (year + 1) - days_from
  let day := if length_of_year % 10 > 4 ∧ month > 2 then day + 1 else day
  let day := if length_of_year % 10 < 4 ∧ month > 3 then day - 1 else day
  let day := if length_of_year > 365 ∧ month > 6 then day + 30 else day
  (day + 1715118, days_from + 1715119, days_from + 1715119 + length_of_year)

/-- `jd_to_hdate(jday)`: Hebrew `(day, month, year, jd of 1 Tishrei, jd of
1 Tishrei next year)` from a Julian day number. -/
def jd_to_hdate (jday : Int) : Int × Int × Int × Int × Int :=
  let year := (jd_to_gdate jday).2.2
  let year := year + 3760
  let jd_tishrey1 := days_from_3744 year + 1715119
  let jd_tishrey1_next_year := days_from_3744 (year + 1) + 1715119
  let step :=
    if jd_tishrey1_next_year ≤ jday then
      (year + 1, jd_tishrey1_next_year, days_from_3744 (year + 2) + 1715119)
    else (year, jd_tishrey1, jd_tishrey1_next_year)
  let year := step.1
  let jd_tishrey1 := step.2.1
  let jd_tishrey1_next_year := step.2.2
  let size_of_year := jd_tishrey1_next_year - jd_tishrey1
  let days := jday - jd_tishrey1
  if days ≥ size_of_year - 236 then
    let days := days - (size_of_year - 236)
    let month := days * 2 / 59
    let day := days - (month * 59 + 1) / 2 + 1
    let month := month + 4 + 1
    let month := if size_of_year > 355 ∧ month ≤ 6 then month + 8 else month
    (day, month, year, jd_tishrey1, jd_tishrey1_next_year)
  else
    let md : Int × Int :=
      if size_of_year % 10 > 4 ∧ days = 59 then (1, 30)
      else if size_of_year % 10 > 4 ∧ days > 59 then
        let month := (days - 1) * 2 / 59
        (month, days - (month * 59 + 1) / 2)
      else if size_of_year % 10 < 4 ∧ days > 87 then
        let month := (days + 1) * 2 / 59
        (month, days - (month * 59 + 1) / 2 + 2)
      else
        let month := days * 2 / 59
        (month, days - (month * 59 + 1) / 2 + 1)
    (md.2, md.1 + 1, year, jd_tishrey1, jd_tishrey1_next_year)

/-- Weekday of 1 Tishrei of the given Hebrew year, in the 1 = Sunday ..
7 = Saturday convention used by the `get_year_type` table.  The Julian day
number of 1 Tishrei is `days_from_3744 year + 1715119` (as computed in both
`hdate_to_jd` and `jd_to_hdate`), and the weekday of a Julian day number `jd`
in this convention is `(jd + 1) % 7 + 1`. -/
def new_year_weekday (hebrew_year : Int) : Int :=
  (days_from_3744 hebrew_year + 1715119 + 1) % 7 + 1

/-!
## Core lemmas about the molad day count

`days_from_3744 y` is `aduCore m p ll` where `m` is the number of months
since the epoch, `p` the molad expressed in parts and `ll` the leap-cycle
position.  The abstracted form lets the deferral analysis be carried out once.
-/
/-- The tail of `_days_from_3744` (day count, molad zaken deferral, ADU rule)
as a function of the month count `m`, the molad parts `p` and the leap-cycle
remainder `ll`. -/
def aduCore (m p ll : Int) : Int :=
  let days := m * 28 + p / 25920 - 2
  let week_day := p % 181440 / 25920
  let parts_left_in_day := p % 25920
  let zaken : Bool :=
    (ll < 12 && week_day == 3 && parts_left_in_day ≥ 16404) ||
    (ll < 7 && week_day == 2 && parts_left_in_day ≥ 23269)
  let days := if zaken then days + 1 else days
  let week_day := if zaken then week_day + 1 else week_day
  if week_day == 1 || week_day == 4 || week_day == 6 then days + 1 else days

/-!
## Civil (Gregorian) date validity

The spec's CivilDate data model: `(day, month, year)` with `month ∈ [1,12]`
and `1 ≤ day ≤` the civil month's length in the proleptic Gregorian calendar.
-/
def is_gregorian_leap (year : Int) : Prop :=
  (year % 4 = 0 ∧ year % 100 ≠ 0) ∨ year % 400 = 0

instance (year : Int) : Decidable (is_gregorian_leap year) := by
  unfold is_gregorian_leap; infer_instance

def civil_month_length (month year : Int) : Int :=
  if month = 2 then (if is_gregorian_leap year then 29 else 28)
  else if month = 4 ∨ month = 6 ∨ month = 9 ∨ month = 11 then 30 else 31

def valid_gdate (day month year : Int) : Prop :=
  1 ≤ month ∧ month ≤ 12 ∧ 1 ≤ day ∧ day ≤ civil_month_length month year

instance (day month year : Int) : Decidable (valid_gdate day month year) := by
  unfold valid_gdate; infer_instance

/-!
## Correctness of the Peter Meyer decomposition in `jd_to_gdate`

`gdate_to_jd` maps a date to `d + (153 mp + 2)/5 + 365 Y + Y/4 - Y/100 +
Y/400 - 32045` where `mp ∈ [0,11]` is the March-based synthetic month and
`Y` the synthetic year.  The lemmas below recover `(d, mp, Y)` from that
Julian day number through the successive integer divisions of `jd_to_gdate`,
after decomposing `Y = 400 q + 100 c + 4 g + h`.
-/
/-- Length of the March-based synthetic month `mp` (February, `mp = 11`, is
taken with its leap-year maximum of 29 here; the exact leap constraint enters
separately). -/
def synMonthLen (mp : Int) : Int :=
  if mp = 1 ∨ mp = 3 ∨ mp = 6 ∨ mp = 8 then 30 else if mp = 11 then 29 else 31

/-!
## Successor of a civil date, and surjectivity of `gdate_to_jd`
-/
/-- Successor of a civil date. -/
def next_gdate (day month year : Int) : Int × Int × Int :=
  if day < civil_month_length month year then (day + 1, month, year)
  else if month < 12 then (1, month + 1, year)
  else (1, 1, year + 1)

/-!
## Hebrew month/day extraction and re-encoding
-/
/-- The (day, month) extraction from the day count since 1 Tishrei, exactly
as in the body of `jd_to_hdate`. -/
def hdate_extract (days size_of_year : Int) : Int × Int :=
  if days ≥ size_of_year - 236 then
    let days := days - (size_of_year - 236)
    let month := days * 2 / 59
    let day := days - (month * 59 + 1) / 2 + 1
    let month := month + 4 + 1
    let month := if size_of_year > 355 ∧ month ≤ 6 then month + 8 else month
    (day, month)
  else
    let md : Int × Int :=
      if size_of_year % 10 > 4 ∧ days = 59 then (1, 30)
      else if size_of_year % 10 > 4 ∧ days > 59 then
        let month := (days - 1) * 2 / 59
        (month, days - (month * 59 + 1) / 2)
      else if size_of_year % 10 < 4 ∧ days > 87 then
        let month := (days + 1) * 2 / 59
        (month, days - (month * 59 + 1) / 2 + 2)
      else
        let month := days * 2 / 59
        (month, days - (month * 59 + 1) / 2 + 1)
    (md.2, md.1 + 1)

/-- The Julian-day re-encoding of `hdate_to_jd`, abstracted over the epoch
day count `df` and the year length. -/
def hdate_reencode (day month df length_of_year : Int) : Int :=
  let month := if month = 13 then 6 else month
  let day := if month = 14 then day + 30 else day
  let month := if month = 14 then 6 else month
  let day := df + (59 * (month - 1) + 1) / 2 + day
  let day := if length_of_year % 10 > 4 ∧ month > 2 then day + 1 else day
  let day := if length_of_year % 10 < 4 ∧ month > 3 then day - 1 else day
  let day := if length_of_year > 365 ∧ month > 6 then day + 30 else day
  day + 1715118

/-!
## The Hebrew year chosen by `jd_to_hdate`
-/
/-- The (year, 1 Tishrei jd, next 1 Tishrei jd) selection of `jd_to_hdate`:
guess the Hebrew year from the civil year and correct an underestimate. -/
def hstep (jday : Int) : Int × Int × Int :=
  let year := (jd_to_gdate jday).2.2 + 3760
  let jd_tishrey1 := days_from_3744 year + 1715119
  let jd_tishrey1_next_year := days_from_3744 (year + 1) + 1715119
  if jd_tishrey1_next_year ≤ jday then
    (year + 1, jd_tishrey1_next_year, days_from_3744 (year + 2) + 1715119)
  else (year, jd_tishrey1, jd_tishrey1_next_year)

/-!
## The 14 valid year-type combinations

The table in the docstring of `get_year_type`.
-/
/-- The 14 valid (year length, Tishrei-1 weekday) combinations, from the
table in `get_year_type`'s docstring. -/
def valid_year_type_combo (size_of_year new_year_dw : Int) : Prop :=
  (size_of_year, new_year_dw) ∈
    [((353 : Int), (2 : Int)), (353, 7), (354, 3), (354, 5), (355, 2),
     (355, 5), (355, 7), (383, 2), (383, 5), (383, 7), (384, 3),
     (385, 2), (385, 5), (385, 7)]

instance (s dw : Int) : Decidable (valid_year_type_combo s dw) := by
  unfold valid_year_type_combo; infer_instance

end Hdate

namespace Zmanim

/-- The floating-point trigonometry of the source (`math.cos`, `math.sin`,
`math.tan`, `math.acos`, `math.pi`) abstracted as parameters over `ℚ`.
`acos` here is the total extension of `math.acos`; the domain test that makes
Python's `math.acos` raise `ValueError` outside `[-1, 1]` appears explicitly
in the embedding, exactly where the source catches the exception. -/
structure Trig where
  cos : ℚ → ℚ
  sin : ℚ → ℚ
  tan : ℚ → ℚ
  acos : ℚ → ℚ
  pi : ℚ

/-- Python `int()` on a rational: truncation toward zero. -/
def pytrunc (q : ℚ) : Int := Int.tdiv q.num q.den

/-- The argument passed to `math.acos` in `_get_utc_sun_time_deg`. -/
def sun_acos_arg (T : Trig) (lat : ℚ) (day_of_year : Int) (deg : ℚ) : ℚ :=
  let sunrise_angle := T.pi * deg / 180
  let gama := 2 * T.pi * (((day_of_year : ℚ) - 1) / 365)
  let decl := 0.006918 - 0.399912 * T.cos gama + 0.070257 * T.sin gama
    - 0.006758 * T.cos (2 * gama) + 0.000907 * T.sin (2 * gama)
    - 0.002697 * T.cos (3 * gama) + 0.00148 * T.sin (3 * gama)
  let latitude := T.pi * lat / 180
  T.cos sunrise_angle / (T.cos latitude * T.cos decl) - T.tan latitude * T.tan decl

/-- `_get_utc_sun_time_deg(deg)` of `zmanim.py` (the copy in `common.py` is
the same formula with the date passed explicitly): UTC times in minutes from
00:00 for the sun at altitude `deg`, or the sentinel `(-720, -720)` when the
`acos` argument leaves `[-1, 1]` (where the source catches `ValueError`). -/
def get_utc_sun_time_deg (T : Trig) (lat lon : ℚ) (day_of_year : Int)
    (deg : ℚ) : Int × Int :=
  let gama := 2 * T.pi * (((day_of_year : ℚ) - 1) / 365)
  let eqtime := 229.18 * (0.000075 + 0.001868 * T.cos gama
    - 0.032077 * T.sin gama - 0.014615 * T.cos (2 * gama)
    - 0.040849 * T.sin (2 * gama))
  if sun_acos_arg T lat day_of_year deg < -1 ∨ 1 < sun_acos_arg T lat day_of_year deg then
    (-720, -720)
  else
    let hour_angle := 720 * T.acos (sun_acos_arg T lat day_of_year deg) / T.pi
    (pytrunc (720 - 4 * lon - hour_angle - eqtime),
     pytrunc (720 - 4 * lon + hour_angle - eqtime))

/-- A concrete trig assignment under which the altitude is unreachable. -/
def badTrig : Trig :=
  { cos := fun _ => -1, sin := fun _ => 0, tan := fun _ => 1,
    acos := fun _ => 0, pi := 3.141592653589793 }

/-- The input accepted by `Zmanim.__init__`: a datetime carries its own time
of day, a bare date does not (the source then falls back to the wall clock).
Both are reduced to the day-of-year used by the solar computations and an
abstract UTC time value. -/
inductive DateInput
  | dtime (day_of_year : Int) (time : ℚ)
  | donly (day_of_year : Int)

structure ZmanimState where
  day_of_year : Int
  time : ℚ
  latitude : ℚ
  longitude : ℚ
  candle_lighting_offset : ℚ
  havdalah_offset : ℚ

/-- `Zmanim.__init__`: a datetime input supplies both the date and
`self.time`; a bare date leaves `self.time` to `datetime.now()`, the wall
clock at construction time, passed here as `now`. -/
def mkZmanim (date : DateInput) (now : ℚ) (lat lon clo ho : ℚ) : ZmanimState :=
  match date with
  | .dtime d t => ⟨d, t, lat, lon, clo, ho⟩
  | .donly d => ⟨d, now, lat, lon, clo, ho⟩

def sunrise (T : Trig) (z : ZmanimState) : Int :=
  (get_utc_sun_time_deg T z.latitude z.longitude z.day_of_year 90.8333).1

def sunset (T : Trig) (z : ZmanimState) : Int :=
  (get_utc_sun_time_deg T z.latitude z.longitude z.day_of_year 90.8333).2

def shaa_zmanit_gra (T : Trig) (z : ZmanimState) : Int :=
  Int.fdiv (sunset T z - sunrise T z) 12

def midday (T : Trig) (z : ZmanimState) : Int :=
  Int.fdiv (sunset T z + sunrise T z) 2

def alot_hashachar (T : Trig) (z : ZmanimState) : Int :=
  (get_utc_sun_time_deg T z.latitude z.longitude z.day_of_year 106.1).1

def misheyakir (T : Trig) (z : ZmanimState) : Int :=
  (get_utc_sun_time_deg T z.latitude z.longitude z.day_of_year 101.0).1

def tset_hakochavim (T : Trig) (z : ZmanimState) : Int :=
  (get_utc_sun_time_deg T z.latitude z.longitude z.day_of_year 96.0).2

def motsei_shabbat (T : Trig) (z : ZmanimState) : Int :=
  (get_utc_sun_time_deg T z.latitude z.longitude z.day_of_year 98.5).2

def shaa_zmanit_mga (T : Trig) (z : ZmanimState) : ℚ :=
  ((midday T z : ℚ) - (alot_hashachar T z : ℚ)) / 6

def plag_mincha (T : Trig) (z : ZmanimState) : ℚ :=
  (sunset T z : ℚ) - 1.25 * (shaa_zmanit_gra T z : ℚ)

def stars_out (T : Trig) (z : ZmanimState) : ℚ :=
  (sunset T z : ℚ) + 18 * (shaa_zmanit_gra T z : ℚ) / 60

def mincha_ktana (T : Trig) (z : ZmanimState) : ℚ :=
  (sunrise T z : ℚ) + 9.5 * (shaa_zmanit_gra T z : ℚ)

def mincha_gedola (T : Trig) (z : ZmanimState) : ℚ :=
  (sunrise T z : ℚ) + 6.5 * (shaa_zmanit_gra T z : ℚ)

def end_shma_mga (T : Trig) (z : ZmanimState) : ℚ :=
  (alot_hashachar T z : ℚ) + shaa_zmanit_mga T z * 3

def end_shma_gra (T : Trig) (z : ZmanimState) : ℚ :=
  (sunrise T z : ℚ) + (shaa_zmanit_gra T z : ℚ) * 3

def end_tfila_mga (T : Trig) (z : ZmanimState) : ℚ :=
  (alot_hashachar T z : ℚ) + shaa_zmanit_mga T z * 4

def end_tfila_gra (T : Trig) (z : ZmanimState) : ℚ :=
  (sunrise T z : ℚ) + (shaa_zmanit_gra T z : ℚ) * 4

def midnight (T : Trig) (z : ZmanimState) : ℚ :=
  (midday T z : ℚ) + 12 * 60

inductive ZmanKey
  | sunrise | sunset | shaa_zmanit_gra | shaa_zmanit_mga | midday
  | alot_hashachar | misheyakir | tset_hakochavim | motsei_shabbat
  | plag_mincha | stars_out | mincha_ktana | mincha_gedola
  | end_shma_mga | end_shma_gra | end_tfila_mga | end_tfila_gra | midnight

/-- Every zman accessor of the `Zmanim` class, as one lookup. -/
def zman_value (T : Trig) (z : ZmanimState) : ZmanKey → ℚ
  | .sunrise => (sunrise T z : ℚ)
  | .sunset => (sunset T z : ℚ)
  | .shaa_zmanit_gra => (shaa_zmanit_gra T z : ℚ)
  | .shaa_zmanit_mga => shaa_zmanit_mga T z
  | .midday => (midday T z : ℚ)
  | .alot_hashachar => (alot_hashachar T z : ℚ)
  | .misheyakir => (misheyakir T z : ℚ)
  | .tset_hakochavim => (tset_hakochavim T z : ℚ)
  | .motsei_shabbat => (motsei_shabbat T z : ℚ)
  | .plag_mincha => plag_mincha T z
  | .stars_out => stars_out T z
  | .mincha_ktana => mincha_ktana T z
  | .mincha_gedola => mincha_gedola T z
  | .end_shma_mga => end_shma_mga T z
  | .end_shma_gra => end_shma_gra T z
  | .end_tfila_mga => end_tfila_mga T z
  | .end_tfila_gra => end_tfila_gra T z
  | .midnight => midnight T z

/-- `Zmanim.utc_zman(key)`: midnight (UTC) of the date plus the zman value in
minutes; `midnight_of_date` models `datetime.combine(self.date, time(), UTC)`. -/
def utc_zman (T : Trig) (z : ZmanimState) (midnight_of_date : ℚ) (key : ZmanKey) : ℚ :=
  midnight_of_date + zman_value T z key

/-- Result of evaluating a piece of Python code: a normal return value, or a
propagating exception. -/
inductive PyResult (α : Type)
  | ok (val : α)
  | exn

/-- `Zmanim.zmanim(key)`: the body is
`return utc_zman(key).astimezone(self.location.timezone)`.  `utc_zman` here
is a bare name; it exists only as a method of the class, never as a
module-level or builtin name, and Python does not search the class namespace
when resolving bare names inside a method, so every call raises `NameError`
before anything is computed. -/
def zmanim_method (key : ZmanKey) : PyResult ℚ := PyResult.exn

/-- `Zmanim._havdalah_datetime`: both branches call `self.zmanim(...)`, so
both raise `NameError`.  The external Sabbath/festival classifier
(`hdate.date.HDate`, not part of the covered core) is, per the spec's
interface contract, passed in as opaque booleans wherever it is consumed. -/
def havdalah_datetime (T : Trig) (z : ZmanimState) : PyResult ℚ :=
  if z.havdalah_offset = 0 then zmanim_method ZmanKey.motsei_shabbat
  else
    match zmanim_method ZmanKey.sunset with
    | PyResult.ok v => PyResult.ok (v + z.havdalah_offset)
    | PyResult.exn => PyResult.exn

/-- `Zmanim.candle_lighting`: `today_yt`/`today_sh` are `today.is_yom_tov` /
`today.is_shabbat` of the external classifier, and similarly for tomorrow.
Both value-producing branches go through `self.zmanim(...)`. -/
def candle_lighting (T : Trig) (z : ZmanimState)
    (today_yt today_sh tomorrow_yt tomorrow_sh : Bool) : PyResult (Option ℚ) :=
  if (today_yt || today_sh) && (tomorrow_yt || tomorrow_sh) then
    match havdalah_datetime T z with
    | PyResult.ok v => PyResult.ok (some v)
    | PyResult.exn => PyResult.exn
  else if tomorrow_sh || tomorrow_yt then
    match zmanim_method ZmanKey.sunset with
    | PyResult.ok v => PyResult.ok (some (v - z.candle_lighting_offset))
    | PyResult.exn => PyResult.exn
  else PyResult.ok none

/-- `Zmanim.havdalah`. -/
def havdalah (T : Trig) (z : ZmanimState)
    (today_yt today_sh tomorrow_yt tomorrow_sh : Bool) : PyResult (Option ℚ) :=
  if today_sh || today_yt then
    if tomorrow_sh || tomorrow_yt then PyResult.ok none
    else
      match havdalah_datetime T z with
      | PyResult.ok v => PyResult.ok (some v)
      | PyResult.exn => PyResult.exn
  else PyResult.ok none

def zc : ZmanimState := ⟨1, 0, 32, 35, 18, 0⟩

end Zmanim

namespace Hdate

theorem days_from_3744_eq_core (y : Int) :
    days_from_3744 y =
      aduCore ((y - 3744) * 12 + ((y - 3744) * 7 + 1) / 19)
        (((y - 3744) * 12 + ((y - 3744) * 7 + 1) / 19) * 39673 + 8339)
        (((y - 3744) * 7 + 1) % 19) := rfl

/-- The possible residues mod 7 of `aduCore`: the ADU rule leaves only four
of the seven possible values. -/
theorem aduCore_mod_seven (m p ll : Int) :
    aduCore m p ll % 7 ≠ 2 ∧ aduCore m p ll % 7 ≠ 4 ∧ aduCore m p ll % 7 ≠ 6 := by
  have key : p / 25920 = 7 * (p / 181440) + p % 181440 / 25920 := by omega
  dsimp only [aduCore]
  split_ifs <;> simp_all <;> omega

set_option maxHeartbeats 4000000 in
/-- Difference of two consecutive `aduCore` values: the six possible Hebrew
year lengths. -/
theorem aduCore_size (m p ll m2 p2 ll2 : Int)
    (h0 : 0 ≤ ll) (h1 : ll < 19)
    (he : (12 ≤ ll ∧ m2 = m + 13 ∧ ll2 = ll + 7 - 19) ∨
          (ll < 12 ∧ m2 = m + 12 ∧ ll2 = ll + 7))
    (hp : p2 = p + (m2 - m) * 39673) :
    aduCore m2 p2 ll2 - aduCore m p ll = 353 ∨
    aduCore m2 p2 ll2 - aduCore m p ll = 354 ∨
    aduCore m2 p2 ll2 - aduCore m p ll = 355 ∨
    aduCore m2 p2 ll2 - aduCore m p ll = 383 ∨
    aduCore m2 p2 ll2 - aduCore m p ll = 384 ∨
    aduCore m2 p2 ll2 - aduCore m p ll = 385 := by
  have key : p / 25920 = 7 * (p / 181440) + p % 181440 / 25920 := by omega
  have key2 : p2 / 25920 = 7 * (p2 / 181440) + p2 % 181440 / 25920 := by omega
  dsimp only [aduCore]
  rcases he with ⟨hll, hm, hl2⟩ | ⟨hll, hm, hl2⟩ <;> subst hm hl2 hp <;>
    split_ifs <;> simp_all <;> omega

/-- Every Hebrew year has one of the six lengths 353, 354, 355, 383, 384,
385 (shared helper). -/
theorem size_of_hebrew_year_mem (y : Int) :
    get_size_of_hebrew_year y = 353 ∨ get_size_of_hebrew_year y = 354 ∨
    get_size_of_hebrew_year y = 355 ∨ get_size_of_hebrew_year y = 383 ∨
    get_size_of_hebrew_year y = 384 ∨ get_size_of_hebrew_year y = 385 := by
  have h1 := days_from_3744_eq_core y
  have h2 := days_from_3744_eq_core (y + 1)
  have hsize : get_size_of_hebrew_year y =
      days_from_3744 (y + 1) - days_from_3744 y := rfl
  rw [hsize, h1, h2]
  exact aduCore_size _ _ _ _ _ _ (by omega) (by omega) (by omega) (by ring)

theorem month_grid : ∀ mp ∈ Finset.range 12, ∀ dd ∈ Finset.range 31,
    (dd : Int) + 1 ≤ synMonthLen mp →
    2447 * (80 * (((dd : Int) + 1) + (153 * (mp : Int) + 2) / 5 + 30) / 2447) / 80
      = (153 * (mp : Int) + 2) / 5 + 30 ∧
    (80 * (((dd : Int) + 1) + (153 * (mp : Int) + 2) / 5 + 30) / 2447) / 11
      = (if (mp : Int) ≤ 9 then 0 else 1) ∧
    (80 * (((dd : Int) + 1) + (153 * (mp : Int) + 2) / 5 + 30) / 2447) + 2 -
        12 * ((80 * (((dd : Int) + 1) + (153 * (mp : Int) + 2) / 5 + 30) / 2447) / 11)
      = (if (mp : Int) ≤ 9 then (mp : Int) + 3 else (mp : Int) - 9) := by decide

theorem month_grid_int (mp d : Int) (h1 : 0 ≤ mp) (h2 : mp ≤ 11)
    (h3 : 1 ≤ d) (h4 : d ≤ synMonthLen mp) :
    2447 * (80 * (d + (153 * mp + 2) / 5 + 30) / 2447) / 80 = (153 * mp + 2) / 5 + 30 ∧
    (80 * (d + (153 * mp + 2) / 5 + 30) / 2447) / 11 = (if mp ≤ 9 then 0 else 1) ∧
    (80 * (d + (153 * mp + 2) / 5 + 30) / 2447) + 2 -
        12 * ((80 * (d + (153 * mp + 2) / 5 + 30) / 2447) / 11)
      = (if mp ≤ 9 then mp + 3 else mp - 9) := by
  have h31 : d ≤ 31 := by dsimp only [synMonthLen] at h4; split_ifs at h4 <;> omega
  have hmn : ((mp.toNat : Nat) : Int) = mp := Int.toNat_of_nonneg h1
  have hdn : (((d - 1).toNat : Nat) : Int) = d - 1 := Int.toNat_of_nonneg (by omega)
  have hm := month_grid mp.toNat (Finset.mem_range.mpr (by omega))
    (d - 1).toNat (Finset.mem_range.mpr (by omega))
  rw [hmn, hdn] at hm
  have hd1 : d - 1 + 1 = d := by ring
  rw [hd1] at hm
  exact hm h4

theorem meyer_n (q c v : Int) (hc0 : 0 ≤ c) (hc1 : c ≤ 3)
    (hv0 : 0 ≤ v) (hv1 : v ≤ 36524) (hv2 : v = 36524 → c = 3) :
    4 * (146097 * q + 36524 * c + v + 36525) / 146097 = 4 * q + 1 + c := by
  omega

theorem meyer_i (w g h : Int) (hg0 : 0 ≤ g) (hg1 : g ≤ 24) (hh0 : 0 ≤ h) (hh1 : h ≤ 3)
    (hw1 : 1 ≤ w) (hw2 : w ≤ 366) (hkey : w ≤ 365 ∨ h = 3) :
    4000 * ((w + 1461 * g + 365 * h - 1) + 1) / 1461001 = 4 * g + h := by
  omega

theorem meyer_e3 (q c : Int) (hc0 : 0 ≤ c) (hc1 : c ≤ 3) :
    (146097 * (4 * q + 1 + c) + 3) / 4 = 146097 * q + 36525 + 36524 * c := by
  omega

theorem meyer_e6 (g h : Int) (hh0 : 0 ≤ h) (hh1 : h ≤ 3) :
    1461 * (4 * g + h) / 4 = 1461 * g + 365 * h := by
  omega

set_option maxHeartbeats 2000000 in
/-- Meyer's decomposition inverts the Fliegel-Van Flandern encoding: for a
valid day `d` of synthetic month `mp` of synthetic year `Y`,
`jd_to_gdate` recovers the civil date. -/
theorem meyer_correct (mp d Y : Int)
    (hmp0 : 0 ≤ mp) (hmp1 : mp ≤ 11)
    (hd1 : 1 ≤ d) (hd2 : d ≤ synMonthLen mp)
    (hfeb : mp = 11 → d = 29 →
      (Y + 1) % 4 = 0 ∧ ((Y + 1) % 100 ≠ 0 ∨ (Y + 1) % 400 = 0)) :
    jd_to_gdate (d + (153 * mp + 2) / 5 + 365 * Y +
        (Y / 4 - Y / 100 + Y / 400) - 32045) =
      (d, (if mp ≤ 9 then mp + 3 else mp - 9),
        Y - 4800 + (if mp ≤ 9 then 0 else 1)) := by
  obtain ⟨q, c, g, h, hY, hc0, hc1, hg0, hg1, hh0, hh1⟩ :
      ∃ q c g h, Y = 400 * q + 100 * c + 4 * g + h ∧
        0 ≤ c ∧ c ≤ 3 ∧ 0 ≤ g ∧ g ≤ 24 ∧ 0 ≤ h ∧ h ≤ 3 :=
    ⟨Y / 400, Y % 400 / 100, Y % 400 % 100 / 4, Y % 400 % 100 % 4,
      by omega, by omega, by omega, by omega, by omega, by omega, by omega⟩
  have hdlen : d ≤ 31 ∧ (mp = 11 → d ≤ 29) := by
    dsimp only [synMonthLen] at hd2; split_ifs at hd2 <;> omega
  have hmo1 : 5 * ((153 * mp + 2) / 5) ≤ 153 * mp + 2 ∧
      153 * mp + 2 < 5 * ((153 * mp + 2) / 5) + 5 := by omega
  have hkey : d + (153 * mp + 2) / 5 ≤ 365 ∨ (h = 3 ∧ (g = 24 → c = 3)) := by
    rcases Classical.em (mp = 11 ∧ d = 29) with ⟨hm11, hd29⟩ | hno
    · rcases hfeb hm11 hd29 with ⟨hf1, hf2⟩
      rcases hf2 with hf2 | hf2
      · right; omega
      · right; omega
    · left; omega
  clear hfeb
  have hw1 : 1 ≤ d + (153 * mp + 2) / 5 := by omega
  have hw2 : d + (153 * mp + 2) / 5 ≤ 366 := by omega
  have hv0 : 0 ≤ d + (153 * mp + 2) / 5 + 1461 * g + 365 * h - 1 := by omega
  have hv1 : d + (153 * mp + 2) / 5 + 1461 * g + 365 * h - 1 ≤ 36524 := by omega
  have hv2 : d + (153 * mp + 2) / 5 + 1461 * g + 365 * h - 1 = 36524 → c = 3 := by
    omega
  have hy4 : Y / 4 = 100 * q + 25 * c + g := by omega
  have hy100 : Y / 100 = 4 * q + c := by omega
  have hy400 : Y / 400 = q := by omega
  have e1 : (d + (153 * mp + 2) / 5 + 365 * Y + (Y / 4 - Y / 100 + Y / 400) - 32045) + 68569
      = 146097 * q + 36524 * c + (d + (153 * mp + 2) / 5 + 1461 * g + 365 * h - 1) + 36525 := by
    rw [hy4, hy100, hy400, hY]; ring
  have e4 : 146097 * q + 36524 * c + (d + (153 * mp + 2) / 5 + 1461 * g + 365 * h - 1) + 36525
        - (146097 * q + 36525 + 36524 * c)
      = d + (153 * mp + 2) / 5 + 1461 * g + 365 * h - 1 := by ring
  have e7 : (d + (153 * mp + 2) / 5 + 1461 * g + 365 * h - 1) - (1461 * g + 365 * h) + 31
      = d + (153 * mp + 2) / 5 + 30 := by ring
  obtain ⟨g1, g2, g3⟩ := month_grid_int mp d hmp0 hmp1 hd1 hd2
  have hkw : d + (153 * mp + 2) / 5 ≤ 365 ∨ h = 3 := by tauto
  dsimp only [jd_to_gdate]
  rw [e1, meyer_n q c _ hc0 hc1 hv0 hv1 hv2, meyer_e3 q c hc0 hc1, e4,
    meyer_i (d + (153 * mp + 2) / 5) g h hg0 hg1 hh0 hh1 hw1 hw2 hkw,
    meyer_e6 g h hh0 hh1, e7, g1, g3, g2]
  refine Prod.ext ?_ (Prod.ext ?_ ?_) <;> dsimp only
  all_goals try ring1
  all_goals rw [hY]; by_cases hsp : mp ≤ 9 <;>
    simp only [hsp, if_true, if_false] <;> ring

/-- `gdate_to_jd` written in the synthetic-month form used by
`meyer_correct`. -/
theorem gdate_to_jd_meyer_form (d m y : Int) (h1 : 1 ≤ m) (h2 : m ≤ 12) :
    gdate_to_jd d m y =
      d + (153 * (if m ≤ 2 then m + 9 else m - 3) + 2) / 5 +
        365 * (y + 4800 - (if m ≤ 2 then 1 else 0)) +
        ((y + 4800 - (if m ≤ 2 then 1 else 0)) / 4 -
          (y + 4800 - (if m ≤ 2 then 1 else 0)) / 100 +
          (y + 4800 - (if m ≤ 2 then 1 else 0)) / 400) - 32045 := by
  dsimp only [gdate_to_jd]
  by_cases hm : m ≤ 2 <;> simp only [hm, if_true, if_false] <;> omega

set_option linter.unnecessarySeqFocus false in
theorem civil_le_syn (m y : Int) (h1 : 1 ≤ m) (h2 : m ≤ 12) :
    civil_month_length m y ≤ synMonthLen (if m ≤ 2 then m + 9 else m - 3) := by
  interval_cases m <;>
    simp only [civil_month_length, synMonthLen] <;> norm_num <;> split_ifs <;> omega

set_option maxHeartbeats 1000000 in
/-- Round trip: `jd_to_gdate` inverts `gdate_to_jd` on every valid proleptic
Gregorian date (shared helper). -/
theorem gdate_roundtrip (d m y : Int) (h : valid_gdate d m y) :
    jd_to_gdate (gdate_to_jd d m y) = (d, m, y) := by
  obtain ⟨h1, h2, h3, h4⟩ := h
  have hb0 : 0 ≤ (if m ≤ 2 then m + 9 else m - 3) := by split_ifs <;> omega
  have hb1 : (if m ≤ 2 then m + 9 else m - 3) ≤ 11 := by split_ifs <;> omega
  have hd2 : d ≤ synMonthLen (if m ≤ 2 then m + 9 else m - 3) :=
    le_trans h4 (civil_le_syn m y h1 h2)
  have hfeb : (if m ≤ 2 then m + 9 else m - 3) = 11 → d = 29 →
      ((y + 4800 - (if m ≤ 2 then 1 else 0)) + 1) % 4 = 0 ∧
      (((y + 4800 - (if m ≤ 2 then 1 else 0)) + 1) % 100 ≠ 0 ∨
        ((y + 4800 - (if m ≤ 2 then 1 else 0)) + 1) % 400 = 0) := by
    intro hm11 hd29
    have hm2 : m = 2 := by split_ifs at hm11 <;> omega
    subst hm2
    have hleap : is_gregorian_leap y := by
      by_contra hnl
      dsimp only [civil_month_length] at h4
      rw [if_pos rfl, if_neg hnl] at h4
      omega
    unfold is_gregorian_leap at hleap
    norm_num
    omega
  have hform := gdate_to_jd_meyer_form d m y h1 h2
  have hmc := meyer_correct (if m ≤ 2 then m + 9 else m - 3) d
    (y + 4800 - (if m ≤ 2 then 1 else 0)) hb0 hb1 h3 hd2 hfeb
  rw [hform, hmc]
  refine Prod.ext rfl (Prod.ext ?_ ?_) <;> dsimp only <;>
    split_ifs <;> omega

theorem civil_month_length_pos (m y : Int) : 1 ≤ civil_month_length m y := by
  unfold civil_month_length; split_ifs <;> omega

theorem year_roll (y : Int) : gdate_to_jd 1 1 (y + 1) = gdate_to_jd 31 12 y + 1 := by
  dsimp only [gdate_to_jd]; omega

set_option maxHeartbeats 1000000 in
theorem month_roll (m y : Int) (h1 : 1 ≤ m) (h2 : m ≤ 11) :
    gdate_to_jd 1 (m + 1) y = gdate_to_jd (civil_month_length m y) m y + 1 := by
  by_cases hL : is_gregorian_leap y
  · have hl2 := hL
    unfold is_gregorian_leap at hl2
    interval_cases m <;> simp only [civil_month_length, hL] <;> norm_num <;>
      dsimp only [gdate_to_jd] <;> omega
  · have hl2 := hL
    unfold is_gregorian_leap at hl2
    interval_cases m <;> simp only [civil_month_length, hL] <;> norm_num <;>
      dsimp only [gdate_to_jd] <;> omega

set_option maxHeartbeats 1000000 in
theorem next_gdate_valid (d m y : Int) (h : valid_gdate d m y) :
    valid_gdate (next_gdate d m y).1 (next_gdate d m y).2.1 (next_gdate d m y).2.2 := by
  obtain ⟨h1, h2, h3, h4⟩ := h
  have hp1 := civil_month_length_pos (m + 1) y
  have hp2 := civil_month_length_pos 1 (y + 1)
  dsimp only [next_gdate]
  split_ifs with ha hb <;> dsimp only <;>
    exact ⟨by omega, by omega, by omega, by omega⟩

theorem next_gdate_jd (d m y : Int) (h : valid_gdate d m y) :
    gdate_to_jd (next_gdate d m y).1 (next_gdate d m y).2.1 (next_gdate d m y).2.2
      = gdate_to_jd d m y + 1 := by
  obtain ⟨h1, h2, h3, h4⟩ := h
  dsimp only [next_gdate]
  split_ifs with ha hb <;> dsimp only
  · dsimp only [gdate_to_jd]; omega
  · have hd : d = civil_month_length m y := by omega
    rw [hd, month_roll m y h1 (by omega)]
  · have hm : m = 12 := by omega
    subst hm
    have hl : civil_month_length 12 y = 31 := by
      unfold civil_month_length; norm_num
    have hd : d = 31 := by omega
    subst hd
    exact year_roll y

set_option maxHeartbeats 2000000 in
/-- Every Julian day number between 1 Jan 1 and 31 Dec 6000 is the image of a
valid civil date. -/
theorem gdate_surj (N : Int) (hlo : 1721426 ≤ N) (hhi : N ≤ 3912880) :
    ∃ d m y, valid_gdate d m y ∧ 1 ≤ y ∧ y ≤ 6000 ∧ gdate_to_jd d m y = N := by
  revert hhi
  refine @Int.le_induction
    (fun K => K ≤ 3912880 →
      ∃ d m y, valid_gdate d m y ∧ 1 ≤ y ∧ y ≤ 6000 ∧ gdate_to_jd d m y = K)
    1721426 ?_ ?_ N hlo
  · intro _
    exact ⟨1, 1, 1, by decide, by norm_num, by norm_num, by decide⟩
  · intro N hN ih htop
    obtain ⟨d, m, y, hval, hy1, hy2, hjd⟩ := ih (by omega)
    have hnjd : gdate_to_jd (next_gdate d m y).1 (next_gdate d m y).2.1
        (next_gdate d m y).2.2 = N + 1 := by rw [next_gdate_jd d m y hval, hjd]
    have hnval := next_gdate_valid d m y hval
    dsimp only [next_gdate] at hnjd hnval
    by_cases c1 : d < civil_month_length m y
    · rw [if_pos c1] at hnjd hnval
      exact ⟨d + 1, m, y, hnval, by omega, by omega, hnjd⟩
    · by_cases c2 : m < 12
      · rw [if_neg c1, if_pos c2] at hnjd hnval
        exact ⟨1, m + 1, y, hnval, by omega, by omega, hnjd⟩
      · rw [if_neg c1, if_neg c2] at hnjd hnval
        refine ⟨1, 1, y + 1, hnval, by omega, ?_, hnjd⟩
        by_contra hgt
        push_neg at hgt
        dsimp only [gdate_to_jd] at hnjd
        omega

set_option maxHeartbeats 2000000 in
theorem jd_year_bounds (d m y : Int) (h : valid_gdate d m y) :
    gdate_to_jd 1 1 y ≤ gdate_to_jd d m y ∧ gdate_to_jd d m y ≤ gdate_to_jd 31 12 y := by
  obtain ⟨h1, h2, h3, h4⟩ := h
  have hcm : civil_month_length m y ≤ 31 := by
    unfold civil_month_length; split_ifs <;> omega
  interval_cases m <;> dsimp only [gdate_to_jd] <;> constructor <;> omega

theorem hdate_to_jd_fst (day month year : Int) :
    (hdate_to_jd day month year).1 =
      hdate_reencode day month (days_from_3744 year)
        (days_from_3744 (year + 1) - days_from_3744 year) := rfl

set_option maxHeartbeats 8000000 in
/-- Re-encoding the extracted Hebrew month and day recovers the day count,
for every year length and every day of the year. -/
theorem extract_reencode (df size days dd mm : Int)
    (hs : size = 353 ∨ size = 354 ∨ size = 355 ∨ size = 383 ∨ size = 384 ∨ size = 385)
    (h0 : 0 ≤ days) (h1 : days < size)
    (he : hdate_extract days size = (dd, mm)) :
    hdate_reencode dd mm df size = df + 1715119 + days := by
  rcases hs with rfl | rfl | rfl | rfl | rfl | rfl <;>
    (dsimp only [hdate_extract] at he
     norm_num at he
     split_ifs at he <;>
      (injection he with he1 he2
       subst he1
       subst he2
       dsimp only [hdate_reencode]
       norm_num
       first
         | (split_ifs <;> omega)
         | omega))

theorem jd_to_hdate_eq (jday : Int) :
    jd_to_hdate jday =
      ((hdate_extract (jday - (hstep jday).2.1) ((hstep jday).2.2 - (hstep jday).2.1)).1,
       (hdate_extract (jday - (hstep jday).2.1) ((hstep jday).2.2 - (hstep jday).2.1)).2,
       (hstep jday).1, (hstep jday).2.1, (hstep jday).2.2) := by
  dsimp only [jd_to_hdate, hstep, hdate_extract]
  split_ifs <;> dsimp only at *

set_option maxHeartbeats 4000000 in
/-- 1 Tishrei of Hebrew year `h` falls within civil year `h - 3761`. -/
theorem tishrei_alignment (h : Int) (hr1 : 3000 ≤ h) (hr2 : h ≤ 12000) :
    gdate_to_jd 1 1 (h - 3761) ≤ days_from_3744 h + 1715119 ∧
    days_from_3744 h + 1715119 ≤ gdate_to_jd 31 12 (h - 3761) := by
  dsimp only [days_from_3744, gdate_to_jd, get_chalakim, PARTS_IN_MONTH,
    PARTS_IN_DAY, PARTS_IN_WEEK, PARTS_IN_HOUR]
  split_ifs <;> simp_all <;> omega

/-!
## The Hebrew round trip
-/
/-- Round trip `jdn -> Hebrew date -> jdn` for every Julian day number
between 1 Jan 1 and 31 Dec 6000 (shared helper). -/
theorem hdate_roundtrip (jdn day month year t1 t1n : Int)
    (hlo : 1721426 ≤ jdn) (hhi : jdn ≤ 3912880)
    (heq : jd_to_hdate jdn = (day, month, year, t1, t1n)) :
    (hdate_to_jd day month year).1 = jdn := by
  obtain ⟨d, m, gy, hval, hg1, hg2, hjd⟩ := gdate_surj jdn hlo hhi
  have hgd : jd_to_gdate jdn = (d, m, gy) := by
    rw [← hjd]; exact gdate_roundtrip d m gy hval
  have hb := jd_year_bounds d m gy hval
  rw [hjd] at hb
  have hal1 := tishrei_alignment (gy + 3760) (by omega) (by omega)
  have hal2 := tishrei_alignment (gy + 3762) (by omega) (by omega)
  have hroll0 : gdate_to_jd 1 1 gy = gdate_to_jd 31 12 (gy - 1) + 1 := by
    have := year_roll (gy - 1); rw [show gy - 1 + 1 = gy from by ring] at this
    exact this
  have hroll1 : gdate_to_jd 1 1 (gy + 1) = gdate_to_jd 31 12 gy + 1 := year_roll gy
  rw [show gy + 3760 - 3761 = gy - 1 from by ring] at hal1
  rw [show gy + 3762 - 3761 = gy + 1 from by ring] at hal2
  rw [jd_to_hdate_eq] at heq
  have hstep_eq : hstep jdn =
      (let year0 := gy + 3760
       let jd1 := days_from_3744 year0 + 1715119
       let jd1n := days_from_3744 (year0 + 1) + 1715119
       if jd1n ≤ jdn then (year0 + 1, jd1n, days_from_3744 (year0 + 2) + 1715119)
       else (year0, jd1, jd1n)) := by
    dsimp only [hstep]
    rw [hgd]
  rw [hstep_eq] at heq
  dsimp only at heq
  by_cases hc : days_from_3744 (gy + 3760 + 1) + 1715119 ≤ jdn
  · rw [if_pos hc] at heq
    dsimp only at heq
    obtain ⟨hd, hm, hy, ht1, ht1n⟩ :
        day = (hdate_extract (jdn - (days_from_3744 (gy + 3760 + 1) + 1715119))
            (days_from_3744 (gy + 3760 + 2) + 1715119 -
              (days_from_3744 (gy + 3760 + 1) + 1715119))).1 ∧
        month = (hdate_extract (jdn - (days_from_3744 (gy + 3760 + 1) + 1715119))
            (days_from_3744 (gy + 3760 + 2) + 1715119 -
              (days_from_3744 (gy + 3760 + 1) + 1715119))).2 ∧
        year = gy + 3760 + 1 ∧
        t1 = days_from_3744 (gy + 3760 + 1) + 1715119 ∧
        t1n = days_from_3744 (gy + 3760 + 2) + 1715119 := by
      have h1 := congrArg Prod.fst heq
      have h2 := congrArg (fun p => p.2.1) heq
      have h3 := congrArg (fun p => p.2.2.1) heq
      have h4 := congrArg (fun p => p.2.2.2.1) heq
      have h5 := congrArg (fun p => p.2.2.2.2) heq
      dsimp only at h1 h2 h3 h4 h5
      exact ⟨h1.symm, h2.symm, h3.symm, h4.symm, h5.symm⟩
    subst hd hm hy
    rw [show gy + 3762 = gy + 3760 + 2 from by ring] at hal2
    have hsize := size_of_hebrew_year_mem (gy + 3760 + 1)
    unfold get_size_of_hebrew_year at hsize
    rw [show gy + 3760 + 1 + 1 = gy + 3760 + 2 from by ring] at hsize
    have hext := extract_reencode (days_from_3744 (gy + 3760 + 1))
      (days_from_3744 (gy + 3760 + 2) + 1715119 -
        (days_from_3744 (gy + 3760 + 1) + 1715119))
      (jdn - (days_from_3744 (gy + 3760 + 1) + 1715119))
      ((hdate_extract (jdn - (days_from_3744 (gy + 3760 + 1) + 1715119))
        (days_from_3744 (gy + 3760 + 2) + 1715119 -
          (days_from_3744 (gy + 3760 + 1) + 1715119))).1)
      ((hdate_extract (jdn - (days_from_3744 (gy + 3760 + 1) + 1715119))
        (days_from_3744 (gy + 3760 + 2) + 1715119 -
          (days_from_3744 (gy + 3760 + 1) + 1715119))).2)
      (by omega) (by omega) (by omega)
      rfl
    rw [hdate_to_jd_fst]
    rw [show gy + 3760 + 1 + 1 = gy + 3760 + 2 from by ring]
    rw [show days_from_3744 (gy + 3760 + 2) - days_from_3744 (gy + 3760 + 1)
      = days_from_3744 (gy + 3760 + 2) + 1715119 -
          (days_from_3744 (gy + 3760 + 1) + 1715119) from by ring]
    omega
  · rw [if_neg hc] at heq
    dsimp only at heq
    obtain ⟨hd, hm, hy, ht1, ht1n⟩ :
        day = (hdate_extract (jdn - (days_from_3744 (gy + 3760) + 1715119))
            (days_from_3744 (gy + 3760 + 1) + 1715119 -
              (days_from_3744 (gy + 3760) + 1715119))).1 ∧
        month = (hdate_extract (jdn - (days_from_3744 (gy + 3760) + 1715119))
            (days_from_3744 (gy + 3760 + 1) + 1715119 -
              (days_from_3744 (gy + 3760) + 1715119))).2 ∧
        year = gy + 3760 ∧
        t1 = days_from_3744 (gy + 3760) + 1715119 ∧
        t1n = days_from_3744 (gy + 3760 + 1) + 1715119 := by
      have h1 := congrArg Prod.fst heq
      have h2 := congrArg (fun p => p.2.1) heq
      have h3 := congrArg (fun p => p.2.2.1) heq
      have h4 := congrArg (fun p => p.2.2.2.1) heq
      have h5 := congrArg (fun p => p.2.2.2.2) heq
      dsimp only at h1 h2 h3 h4 h5
      exact ⟨h1.symm, h2.symm, h3.symm, h4.symm, h5.symm⟩
    subst hd hm hy
    have hsize := size_of_hebrew_year_mem (gy + 3760)
    unfold get_size_of_hebrew_year at hsize
    have hext := extract_reencode (days_from_3744 (gy + 3760))
      (days_from_3744 (gy + 3760 + 1) + 1715119 -
        (days_from_3744 (gy + 3760) + 1715119))
      (jdn - (days_from_3744 (gy + 3760) + 1715119))
      ((hdate_extract (jdn - (days_from_3744 (gy + 3760) + 1715119))
        (days_from_3744 (gy + 3760 + 1) + 1715119 -
          (days_from_3744 (gy + 3760) + 1715119))).1)
      ((hdate_extract (jdn - (days_from_3744 (gy + 3760) + 1715119))
        (days_from_3744 (gy + 3760 + 1) + 1715119 -
          (days_from_3744 (gy + 3760) + 1715119))).2)
      (by omega) (by omega) (by omega)
      rfl
    rw [hdate_to_jd_fst]
    rw [show days_from_3744 (gy + 3760 + 1) - days_from_3744 (gy + 3760)
      = days_from_3744 (gy + 3760 + 1) + 1715119 -
          (days_from_3744 (gy + 3760) + 1715119) from by ring]
    omega

/-!
## Claim theorems
-/
/-- C1: for every representable civil (Gregorian) date `d`, converting it to
a Julian day number and back returns the same date:
`jd_to_gdate (gdate_to_jd d) = d`. -/
theorem C1_civil_roundtrip (d m y : Int) (h : valid_gdate d m y) :
    jd_to_gdate (gdate_to_jd d m y) = (d, m, y) :=
  gdate_roundtrip d m y h

theorem C1_civil_roundtrip_witness :
    valid_gdate 29 2 2024 ∧ jd_to_gdate (gdate_to_jd 29 2 2024) = (29, 2, 2024) :=
  ⟨by decide, C1_civil_roundtrip 29 2 2024 (by decide)⟩

/-- C2: for every Julian day number `jdn` in a wide contiguous range (here:
1 Jan 1 to 31 Dec 6000 of the civil calendar, Julian day numbers 1721426 to
3912880), if `jd_to_hdate jdn` yields Hebrew date (day, month, year), then
`hdate_to_jd day month year` returns `jdn` as its first result. -/
theorem C2_hebrew_roundtrip (jdn day month year t1 t1n : Int)
    (hlo : 1721426 ≤ jdn) (hhi : jdn ≤ 3912880)
    (heq : jd_to_hdate jdn = (day, month, year, t1, t1n)) :
    (hdate_to_jd day month year).1 = jdn :=
  hdate_roundtrip jdn day month year t1 t1n hlo hhi heq

theorem C2_hebrew_roundtrip_witness :
    1721426 ≤ 2460311 ∧ 2460311 ≤ 3912880 ∧
    jd_to_hdate 2460311 = (20, 4, 5784, 2460204, 2460587) ∧
    (hdate_to_jd 20 4 5784).1 = 2460311 :=
  ⟨by decide, by decide, by decide,
    C2_hebrew_roundtrip 2460311 20 4 5784 2460204 2460587
      (by decide) (by decide) (by decide)⟩

/-- C3: for every Hebrew year, the year length
`_days_from_3744 (year + 1) - _days_from_3744 year` is one of exactly six
values: 353, 354, 355, 383, 384 or 385. -/
theorem C3_year_length (y : Int) :
    get_size_of_hebrew_year y = 353 ∨ get_size_of_hebrew_year y = 354 ∨
    get_size_of_hebrew_year y = 355 ∨ get_size_of_hebrew_year y = 383 ∨
    get_size_of_hebrew_year y = 384 ∨ get_size_of_hebrew_year y = 385 :=
  size_of_hebrew_year_mem y

/-- C4: for every Hebrew year, the weekday of 1 Tishrei (derived from
`_days_from_3744 year` modulo 7) is never Sunday (1), Wednesday (4) or
Friday (6): the ADU rule. -/
theorem C4_adu_rule (y : Int) :
    new_year_weekday y ≠ 1 ∧ new_year_weekday y ≠ 4 ∧ new_year_weekday y ≠ 6 := by
  have h := aduCore_mod_seven ((y - 3744) * 12 + ((y - 3744) * 7 + 1) / 19)
    (((y - 3744) * 12 + ((y - 3744) * 7 + 1) / 19) * 39673 + 8339)
    (((y - 3744) * 7 + 1) % 19)
  have hb := days_from_3744_eq_core y
  unfold new_year_weekday
  rw [hb]
  omega

/-- C5 counterexample: the invalid combination (length 353, weekday 3) does
not fail: `get_year_type` returns the normal value 0 for it. -/
theorem C5_counterexample :
    get_year_type 353 3 = some 0 ∧ ¬ valid_year_type_combo 353 3 := by decide

/-- C5 (amended): `get_year_type` returns a code in [1,14] for each of the 14
valid length/weekday combinations, but combinations outside those 14 are not
all rejected with an error: (353,3) returns the normal value 0, and (353,1)
even returns the in-range code 1.  Only an offset outside the 24-entry
table's Python index range raises `IndexError` (modelled as `none`),
e.g. (300,1). -/
theorem C5_year_type (s dw : Int) (h : valid_year_type_combo s dw) :
    (get_year_type s dw ≠ none ∧
      1 ≤ (get_year_type s dw).getD 0 ∧ (get_year_type s dw).getD 0 ≤ 14) ∧
    get_year_type 353 3 = some 0 ∧
    get_year_type 353 1 = some 1 ∧
    get_year_type 300 1 = none := by
  refine ⟨?_, by decide, by decide, by decide⟩
  unfold valid_year_type_combo at h
  fin_cases h <;> refine ⟨by decide, by decide, by decide⟩

theorem C5_year_type_witness :
    (get_year_type 353 2 ≠ none ∧
      1 ≤ (get_year_type 353 2).getD 0 ∧ (get_year_type 353 2).getD 0 ≤ 14) ∧
    get_year_type 353 3 = some 0 ∧
    get_year_type 353 1 = some 1 ∧
    get_year_type 300 1 = none :=
  C5_year_type 353 2 (by decide)

end Hdate

namespace Zmanim

/-- C6: for every location, date and altitude, when the argument to `acos`
in the hour-angle computation falls outside [-1, 1] (the sun never reaches
the requested altitude on that date at that latitude),
`_get_utc_sun_time_deg` returns the defined sentinel pair (-720, -720) and
does not raise an exception (the `except ValueError` branch is the modelled
domain test). -/
theorem C6_sentinel (T : Trig) (lat lon : ℚ) (doy : Int) (deg : ℚ)
    (h : sun_acos_arg T lat doy deg < -1 ∨ 1 < sun_acos_arg T lat doy deg) :
    get_utc_sun_time_deg T lat lon doy deg = (-720, -720) := by
  dsimp only [get_utc_sun_time_deg]
  rw [if_pos h]

theorem C6_sentinel_witness :
    (sun_acos_arg badTrig 32 1 106.1 < -1 ∨ 1 < sun_acos_arg badTrig 32 1 106.1) ∧
    get_utc_sun_time_deg badTrig 32 35 1 106.1 = (-720, -720) :=
  ⟨by left; norm_num [sun_acos_arg, badTrig],
   C6_sentinel badTrig 32 35 1 106.1 (by left; norm_num [sun_acos_arg, badTrig])⟩

/-- C7 (amended): the composition layer does not convert the (-720, -720)
sentinel into a distinguished "not applicable" value: when the requested
altitude is unreachable, `alot_hashachar` returns the numeric sentinel -720
itself, and `utc_zman` turns it into midnight minus 720 minutes as if it
were a real time. -/
theorem C7_amended (T : Trig) (z : ZmanimState)
    (h : sun_acos_arg T z.latitude z.day_of_year 106.1 < -1 ∨
         1 < sun_acos_arg T z.latitude z.day_of_year 106.1) :
    alot_hashachar T z = -720 ∧
    ∀ mid, utc_zman T z mid ZmanKey.alot_hashachar = mid + (-720) := by
  have hs := C6_sentinel T z.latitude z.longitude z.day_of_year 106.1 h
  constructor
  · dsimp only [alot_hashachar]
    rw [hs]
  · intro mid
    dsimp only [utc_zman, zman_value, alot_hashachar]
    rw [hs]
    norm_num

/-- C7 counterexample: a concrete instance on which the sun function
returns the sentinel and the `alot_hashachar` accessor exposes -720
unconverted, and `utc_zman` treats it as a real offset. -/
theorem C7_counterexample :
    get_utc_sun_time_deg badTrig 32 35 1 106.1 = (-720, -720) ∧
    alot_hashachar badTrig zc = -720 ∧
    utc_zman badTrig zc 0 ZmanKey.alot_hashachar = -720 := by
  refine ⟨?_, ?_, ?_⟩ <;>
    norm_num [alot_hashachar, utc_zman, zman_value, zc,
      get_utc_sun_time_deg, sun_acos_arg, badTrig, pytrunc]

theorem C7_amended_witness :
    alot_hashachar badTrig zc = -720 ∧
    ∀ mid, utc_zman badTrig zc mid ZmanKey.alot_hashachar = mid + (-720) :=
  C7_amended badTrig zc (by left; norm_num [sun_acos_arg, badTrig, zc])

/-- C8: the claim is refuted by the code.  Whenever tomorrow is
Sabbath/festival (with or without today), `candle_lighting` raises
`NameError` - it reaches `self.zmanim(...)`, whose body reads the bare name
`utc_zman` - instead of returning the havdalah instant or sunset minus the
configured offset; only the "otherwise undefined" case behaves as claimed,
returning `None`. -/
theorem C8_candle_lighting_raises (T : Trig) (z : ZmanimState)
    (today_yt today_sh tomorrow_yt tomorrow_sh : Bool) :
    candle_lighting T z today_yt today_sh tomorrow_yt tomorrow_sh
      = (if tomorrow_yt || tomorrow_sh then PyResult.exn else PyResult.ok none) := by
  cases today_yt <;> cases today_sh <;> cases tomorrow_yt <;> cases tomorrow_sh <;>
    (dsimp only [candle_lighting, havdalah_datetime, zmanim_method]
     split_ifs <;> simp_all)

/-- C9: the claim is refuted by the code.  When today is Sabbath/festival
and tomorrow is not - exactly the case in which the claim says `havdalah`
equals the three-stars or sunset-plus-offset instant - the property raises
`NameError` through `self._havdalah_datetime` and `self.zmanim(...)` (whose
body reads the bare name `utc_zman`); in every other case it returns `None`,
as claimed. -/
theorem C9_havdalah_raises (T : Trig) (z : ZmanimState)
    (today_yt today_sh tomorrow_yt tomorrow_sh : Bool) :
    havdalah T z today_yt today_sh tomorrow_yt tomorrow_sh
      = (if (today_sh || today_yt) && !(tomorrow_sh || tomorrow_yt)
         then PyResult.exn else PyResult.ok none) := by
  cases today_yt <;> cases today_sh <;> cases tomorrow_yt <;> cases tomorrow_sh <;>
    (dsimp only [havdalah, havdalah_datetime, zmanim_method]
     split_ifs <;> simp_all)

/-- C10: the zmanim computation is a pure function of its inputs: two
constructions from the same date value, location and offsets agree on every
zman and on `candle_lighting`/`havdalah`, whatever the wall-clock `now` at
construction time; `now` enters only the `time` field, which is consumed
only by `issur_melacha_in_effect`. -/
theorem C10_determinism (T : Trig) (date : DateInput) (now now2 lat lon clo ho : ℚ) :
    (∀ key, zman_value T (mkZmanim date now lat lon clo ho) key
      = zman_value T (mkZmanim date now2 lat lon clo ho) key) ∧
    (∀ tyt tsh myt msh,
      candle_lighting T (mkZmanim date now lat lon clo ho) tyt tsh myt msh
        = candle_lighting T (mkZmanim date now2 lat lon clo ho) tyt tsh myt msh ∧
      havdalah T (mkZmanim date now lat lon clo ho) tyt tsh myt msh
        = havdalah T (mkZmanim date now2 lat lon clo ho) tyt tsh myt msh) ∧
    (mkZmanim date now lat lon clo ho).time
      = (match date with | .dtime _ t => t | .donly _ => now) := by
  cases date <;>
    exact ⟨fun _ => rfl, fun _ _ _ _ => ⟨rfl, rfl⟩, rfl⟩

end Zmanim
